import Mathlib

/-!
# Military flight surge detection — shallow embedding

Embedding of the surge-detection core of `src/api/eia.js` (the module
exporting `analyzeFlightsForSurge`, `getActiveSurges`, `getTheaterActivity`
and `surgeAlertToSignal`).

Modelling conventions:
* JavaScript `Map` objects (insertion-ordered, unique keys) are modelled as
  association lists `List (String × α)` with `mapGet` / `mapSet` mirroring
  `Map.get` / `Map.set` (set replaces in place, inserts at the end).
* JavaScript numbers are modelled as `ℚ` where fractional arithmetic occurs
  (baselines, surge multiples, confidences) and as `Int` for millisecond
  timestamps; counts are `Nat`.
* The base catalog `MILITARY_BASES_EXPANDED` lives in a configuration file
  that is not part of the core source, and `distanceKm` is floating-point
  haversine trigonometry; the pipeline is therefore parameterized by the
  base list and by an abstract distance function `dist lat1 lon1 lat2 lon2`,
  and theorems quantify over both.
-/

namespace WorldMonitor

/-- One entry of the external base catalog (id, name, coordinate). -/
structure Base where
  id : String
  name : String
  lat : ℚ
  lon : ℚ
deriving Repr, DecidableEq

/-- Input flight record (fields of `MilitaryFlight` used by the core). -/
structure MilitaryFlight where
  id : String
  callsign : String
  aircraftType : String
  aircraftModel : Option String
  lat : ℚ
  lon : ℚ
deriving Repr, DecidableEq

/-- A geographic theater from the static `THEATERS` catalog. -/
structure MilitaryTheater where
  id : String
  name : String
  baseIds : List String
  centerLat : ℚ
  centerLon : ℚ
deriving Repr, DecidableEq

/-- Flight classification result of `classifyFlight`. -/
inductive FlightClass where
  | transport | fighter | recon | other
deriving Repr, DecidableEq

/-- Surge alert type tag. -/
inductive SurgeType where
  | airlift | fighter | reconnaissance
deriving Repr, DecidableEq

/-- `SurgeAlert` record; `theater` holds the full theater object as in the
source, timestamps are milliseconds. -/
structure SurgeAlert where
  id : String
  theater : MilitaryTheater
  type : SurgeType
  currentCount : Nat
  baselineCount : Int
  surgeMultiple : ℚ
  aircraftTypes : List (String × Nat)
  nearbyBases : List String
  firstDetected : Int
  lastUpdated : Int
deriving Repr, DecidableEq

/-- `TheaterActivity` snapshot produced once per theater per cycle. -/
structure TheaterActivity where
  theaterId : String
  timestamp : Int
  transportCount : Nat
  fighterCount : Nat
  reconCount : Nat
  totalMilitary : Nat
  flightIds : List String
deriving Repr, DecidableEq

/-- Baseline activity levels returned by `calculateBaseline`. -/
structure Baseline where
  transport : ℚ
  fighter : ℚ
  recon : ℚ
deriving Repr, DecidableEq

/-- The process-wide mutable state: the two module-level maps and the
last-cleanup timestamp. -/
structure AnalysisState where
  activityHistory : List (String × List TheaterActivity)
  activeSurges : List (String × SurgeAlert)
  lastCleanup : Int
deriving Repr, DecidableEq

/-! ## JavaScript `Map` semantics over association lists -/

/-- `Map.get`: the value at the first (unique) occurrence of the key. -/
def mapGet {α : Type} (m : List (String × α)) (k : String) : Option α :=
  (m.find? (fun p => p.1 == k)).map (·.2)

/-- `Map.set`: replace the value at an existing key in place, otherwise
append the new binding at the end (JS insertion order). -/
def mapSet {α : Type} : List (String × α) → String → α → List (String × α)
  | [], k, v => [(k, v)]
  | p :: rest, k, v => if p.1 == k then (k, v) :: rest else p :: mapSet rest k v

/-! ## Constants (source lines 189-201) -/

def SURGE_THRESHOLD : ℚ := 2
def BASELINE_WINDOW_HOURS : Int := 48
def BASELINE_MIN_SAMPLES : Nat := 6
def PROXIMITY_RADIUS_KM : ℚ := 150
def CLEANUP_INTERVAL : Int := 60 * 60 * 1000
def MAX_HISTORY_HOURS : Int := 72

/-! ## Theater catalog (source lines 147-187) -/

def THEATERS : List MilitaryTheater := [
  { id := "middle-east",
    name := "Middle East / Persian Gulf",
    baseIds := ["al_udeid", "ali_al_salem_air_base", "camp_arifjan", "camp_buehring",
                "kuwait_naval_base", "naval_support_activity_bahrain", "isa_air_base",
                "masirah_aira_base", "rafo_thumrait", "al_dhafra_air_base",
                "port_of_jebel_ali", "fujairah_naval_base", "prince_sultan_air_base",
                "ain_assad_air_base", "camp_victory", "naval_support_facility_diego_garcia"],
    centerLat := 27, centerLon := 50 },
  { id := "europe-east",
    name := "Eastern Europe",
    baseIds := ["camp_bondsteel", "aitos_logistics_center", "bezmer", "graf_ignatievo"],
    centerLat := 45, centerLon := 25 },
  { id := "europe-west",
    name := "Western Europe",
    baseIds := ["ramstein", "spangdahlem", "usag_stuttgart", "raf_lakenheath",
                "raf_mildenhall", "aviano"],
    centerLat := 50, centerLon := 8 },
  { id := "pacific-west",
    name := "Western Pacific",
    baseIds := ["kadena_air_base", "camp_fuji", "fleet_activities_okinawa", "yokota",
                "misawsa", "osan_air_base", "kunsan_ab", "us_army_garrison_humphreys",
                "andersen_air_force_base"],
    centerLat := 30, centerLon := 130 },
  { id := "africa-horn",
    name := "Horn of Africa",
    baseIds := ["camp_lemonnier", "contingency_location_garoua", "niger_air_base_201"],
    centerLat := 10, centerLon := 40 }]

/-- An abstract great-circle distance function `dist lat1 lon1 lat2 lon2`
standing for the floating-point haversine `distanceKm` of the source. -/
def DistFun : Type := ℚ → ℚ → ℚ → ℚ → ℚ

/-- `getTheaterForBase` (source lines 203-210): the first theater whose
`baseIds` contains the given base id. -/
def getTheaterForBase (baseId : String) : Option MilitaryTheater :=
  THEATERS.find? (fun t => t.baseIds.contains baseId)

/-- One element of the list returned by `findNearbyBases`. -/
structure NearbyBase where
  baseId : String
  baseName : String
  distance : ℚ
deriving Repr, DecidableEq

/-- `findNearbyBases` (source lines 222-231): all catalog bases within
`PROXIMITY_RADIUS_KM`, sorted ascending by distance (stable sort, as JS
`Array.sort`). -/
def findNearbyBases (bases : List Base) (dist : DistFun) (lat lon : ℚ) :
    List NearbyBase :=
  let nearby := bases.filterMap (fun b =>
    let d := dist lat lon b.lat b.lon
    if d ≤ PROXIMITY_RADIUS_KM then some ⟨b.id, b.name, d⟩ else none)
  nearby.mergeSort (fun a b => a.distance ≤ b.distance)

/-- `getTheaterForFlight` (source lines 248-259): the owning theater of the
first nearby base that belongs to one; otherwise the first theater of the
catalog whose center is strictly within 1500 km; otherwise none. -/
def getTheaterForFlight (bases : List Base) (dist : DistFun)
    (flight : MilitaryFlight) : Option MilitaryTheater :=
  let nearbyBases := findNearbyBases bases dist flight.lat flight.lon
  match nearbyBases.findSome? (fun nb => getTheaterForBase nb.baseId) with
  | some t => some t
  | none => THEATERS.find? (fun t =>
      dist flight.lat flight.lon t.centerLat t.centerLon < 1500)

/-! ## Flight classification (source lines 192-194, 233-246) -/

/-- The transport callsign patterns, each regex `^X/i` modelled as a
case-insensitive prefix test on the uppercased callsign. -/
def TRANSPORT_CALLSIGN_PATTERNS : List String :=
  ["RCH", "REACH", "MOOSE", "HERKY", "EVAC", "DUSTOFF"]

/-- `isTransportFlight` (source lines 233-239). -/
def isTransportFlight (flight : MilitaryFlight) : Bool :=
  if flight.aircraftType == "transport" || flight.aircraftType == "tanker" then
    true
  else
    let callsign := flight.callsign.toUpper
    TRANSPORT_CALLSIGN_PATTERNS.any (fun p => callsign.startsWith p)

/-- `classifyFlight` (source lines 241-246). -/
def classifyFlight (flight : MilitaryFlight) : FlightClass :=
  if isTransportFlight flight then .transport
  else if flight.aircraftType == "fighter" then .fighter
  else if flight.aircraftType == "reconnaissance" || flight.aircraftType == "awacs" then .recon
  else .other

/-! ## Baseline estimation (source lines 261-279) -/

/-- `calculateBaseline` (source lines 261-279): mean activity over the
trailing 48-hour window when at least 6 samples qualify, with per-category
floors; fixed defaults otherwise. The `reduce` sums are folds over ℚ. -/
def calculateBaseline (activityHistory : List (String × List TheaterActivity))
    (now : Int) (theaterId : String) : Baseline :=
  let history := (mapGet activityHistory theaterId).getD []
  let cutoff := now - BASELINE_WINDOW_HOURS * 60 * 60 * 1000
  let relevant := history.filter (fun h => cutoff ≤ h.timestamp)
  if relevant.length < BASELINE_MIN_SAMPLES then
    { transport := 3, fighter := 2, recon := 1 }
  else
    let avgTransport : ℚ :=
      relevant.foldl (fun sum h => sum + (h.transportCount : ℚ)) 0 / relevant.length
    let avgFighter : ℚ :=
      relevant.foldl (fun sum h => sum + (h.fighterCount : ℚ)) 0 / relevant.length
    let avgRecon : ℚ :=
      relevant.foldl (fun sum h => sum + (h.reconCount : ℚ)) 0 / relevant.length
    { transport := max 2 avgTransport,
      fighter := max 1 avgFighter,
      recon := max 1 avgRecon }

/-! ## Cleanup (source lines 281-302) -/

/-- `cleanupOldHistory` (source lines 281-302): time-gated; prunes history
entries older than 72 hours (deleting a theater whose filtered history is
empty) and evicts alerts idle for more than 2 hours. Iterating a JS Map
while setting/deleting the current key is equivalent to the map+filter. -/
def cleanupOldHistory (now : Int) (st : AnalysisState) : AnalysisState :=
  if now - st.lastCleanup < CLEANUP_INTERVAL then st
  else
    let cutoff := now - MAX_HISTORY_HOURS * 60 * 60 * 1000
    let history := (st.activityHistory.map
        (fun p => (p.1, p.2.filter (fun h => cutoff ≤ h.timestamp)))).filter
      (fun p => !p.2.isEmpty)
    let surges := st.activeSurges.filter
      (fun p => !(2 * 60 * 60 * 1000 < now - p.2.lastUpdated))
    { activityHistory := history, activeSurges := surges, lastCleanup := now }

/-! ## Aggregation (source lines 307-357) -/

/-- `flight.aircraftModel || flight.aircraftType || 'unknown'` with JS
string truthiness (the empty string is falsy). -/
def typeKey (flight : MilitaryFlight) : String :=
  match flight.aircraftModel with
  | some m => if m ≠ "" then m
              else if flight.aircraftType ≠ "" then flight.aircraftType else "unknown"
  | none => if flight.aircraftType ≠ "" then flight.aircraftType else "unknown"

/-- Increment a histogram entry, JS-Map style (`set(k, (get(k)||0)+1)`). -/
def bumpCount (m : List (String × Nat)) (k : String) : List (String × Nat) :=
  mapSet m k ((mapGet m k).getD 0 + 1)

/-- Insert into a JS `Set` (dedup, insertion order preserved). -/
def insertUniq (l : List String) (s : String) : List String :=
  if s ∈ l then l else l ++ [s]

/-- The per-theater tallies accumulated by the inner loop of
`analyzeFlightsForSurge` (source lines 323-342). -/
structure Aggregation where
  transportCount : Nat
  fighterCount : Nat
  reconCount : Nat
  aircraftTypes : List (String × Nat)
  nearbyBases : List String
deriving Repr, DecidableEq

/-- The inner flight loop (source lines 329-342): classify and count each
flight, build the aircraft-type histogram, and collect the names of up to
the 3 nearest bases per flight into a deduplicated set. -/
def aggregate (bases : List Base) (dist : DistFun)
    (theaterFlightList : List MilitaryFlight) : Aggregation :=
  theaterFlightList.foldl (fun (ag : Aggregation) (flight : MilitaryFlight) =>
    let c := classifyFlight flight
    let ag := { ag with
      transportCount := if c = FlightClass.transport then ag.transportCount + 1 else ag.transportCount,
      fighterCount := if c = FlightClass.fighter then ag.fighterCount + 1 else ag.fighterCount,
      reconCount := if c = FlightClass.recon then ag.reconCount + 1 else ag.reconCount }
    let ag := { ag with aircraftTypes := bumpCount ag.aircraftTypes (typeKey flight) }
    let nearby := (findNearbyBases bases dist flight.lat flight.lon).take 3
    { ag with nearbyBases := nearby.foldl (fun acc (nb : NearbyBase) => insertUniq acc nb.baseName) ag.nearbyBases })
    ⟨0, 0, 0, [], []⟩

/-- Grouping of flights by resolved theater (source lines 307-314):
unresolved flights are silently dropped. -/
def groupFlights (bases : List Base) (dist : DistFun)
    (flights : List MilitaryFlight) : List (String × List MilitaryFlight) :=
  flights.foldl (fun m flight =>
    match getTheaterForFlight bases dist flight with
    | none => m
    | some theater => mapSet m theater.id ((mapGet m theater.id).getD [] ++ [flight])) []

/-- The `TheaterActivity` snapshot built at source lines 344-352. -/
def mkActivity (bases : List Base) (dist : DistFun) (now : Int)
    (theaterId : String) (theaterFlightList : List MilitaryFlight) : TheaterActivity :=
  let ag := aggregate bases dist theaterFlightList
  { theaterId := theaterId, timestamp := now,
    transportCount := ag.transportCount, fighterCount := ag.fighterCount,
    reconCount := ag.reconCount, totalMilitary := theaterFlightList.length,
    flightIds := theaterFlightList.map (·.id) }

/-- JavaScript `Math.round` (round half toward +∞). -/
def jsRound (q : ℚ) : Int := ⌊q + 1 / 2⌋

/-! ## Surge detection steps (source lines 361-410) -/

/-- The airlift-surge block (source lines 361-388): on detection, update an
existing `airlift-<theaterId>` alert in place (count, multiple, histogram,
bases, last-updated) without returning it, or create, register and return a
fresh alert. -/
def airliftStep (theater : MilitaryTheater) (ag : Aggregation)
    (baseline : Baseline) (now : Int)
    (surges : List (String × SurgeAlert)) (newAlerts : List SurgeAlert) :
    List (String × SurgeAlert) × List SurgeAlert :=
  if baseline.transport * SURGE_THRESHOLD ≤ (ag.transportCount : ℚ) ∧ 5 ≤ ag.transportCount then
    let surgeId := "airlift-" ++ theater.id
    let surgeMultiple : ℚ := (ag.transportCount : ℚ) / baseline.transport
    match mapGet surges surgeId with
    | some existing =>
      let updated := { existing with
        currentCount := ag.transportCount,
        surgeMultiple := surgeMultiple,
        aircraftTypes := ag.aircraftTypes,
        nearbyBases := ag.nearbyBases,
        lastUpdated := now }
      (mapSet surges surgeId updated, newAlerts)
    | none =>
      let alert : SurgeAlert := {
        id := surgeId, theater := theater, type := .airlift,
        currentCount := ag.transportCount,
        baselineCount := jsRound baseline.transport,
        surgeMultiple := surgeMultiple,
        aircraftTypes := ag.aircraftTypes,
        nearbyBases := ag.nearbyBases,
        firstDetected := now, lastUpdated := now }
      (mapSet surges surgeId alert, newAlerts ++ [alert])
  else (surges, newAlerts)

/-- The fighter-surge block (source lines 390-410): on detection, create,
register and return an alert only when none exists under the key; an
existing alert is left completely untouched. -/
def fighterStep (theater : MilitaryTheater) (ag : Aggregation)
    (baseline : Baseline) (now : Int)
    (surges : List (String × SurgeAlert)) (newAlerts : List SurgeAlert) :
    List (String × SurgeAlert) × List SurgeAlert :=
  if baseline.fighter * SURGE_THRESHOLD ≤ (ag.fighterCount : ℚ) ∧ 4 ≤ ag.fighterCount then
    let surgeId := "fighter-" ++ theater.id
    let surgeMultiple : ℚ := (ag.fighterCount : ℚ) / baseline.fighter
    if (mapGet surges surgeId).isSome then (surges, newAlerts)
    else
      let alert : SurgeAlert := {
        id := surgeId, theater := theater, type := .fighter,
        currentCount := ag.fighterCount,
        baselineCount := jsRound baseline.fighter,
        surgeMultiple := surgeMultiple,
        aircraftTypes := ag.aircraftTypes,
        nearbyBases := ag.nearbyBases,
        firstDetected := now, lastUpdated := now }
      (mapSet surges surgeId alert, newAlerts ++ [alert])
  else (surges, newAlerts)

/-- The history append-and-cap of the per-theater loop (source lines
354-357): push the snapshot and drop the oldest entry past 200. -/
def updateHistory (st : AnalysisState) (theaterId : String)
    (activity : TheaterActivity) : AnalysisState :=
  let history := (mapGet st.activityHistory theaterId).getD [] ++ [activity]
  let history := if history.length > 200 then history.tail else history
  { st with activityHistory := mapSet st.activityHistory theaterId history }

/-- The body of the per-theater loop (source lines 319-411): aggregate,
append the activity snapshot to the capped history, compute the baseline,
then run the airlift and fighter checks in sequence. -/
def analyzeStep (bases : List Base) (dist : DistFun) (now : Int)
    (acc : AnalysisState × List SurgeAlert)
    (entry : String × List MilitaryFlight) : AnalysisState × List SurgeAlert :=
  let (st, newAlerts) := acc
  match THEATERS.find? (fun t => t.id == entry.1) with
  | none => (st, newAlerts)
  | some theater =>
    let ag := aggregate bases dist entry.2
    let st := updateHistory st entry.1 (mkActivity bases dist now entry.1 entry.2)
    let baseline := calculateBaseline st.activityHistory now entry.1
    let (surges, newAlerts) := airliftStep theater ag baseline now st.activeSurges newAlerts
    let (surges, newAlerts) := fighterStep theater ag baseline now surges newAlerts
    ({ st with activeSurges := surges }, newAlerts)

/-- `analyzeFlightsForSurge` (source lines 304-414): lazy cleanup, group
flights by theater, process each theater, and return only the alerts newly
created this cycle. All `Date.now()` / `new Date()` reads of one cycle are
the single parameter `now`. -/
def analyzeFlightsForSurge (bases : List Base) (dist : DistFun) (now : Int)
    (st : AnalysisState) (flights : List MilitaryFlight) :
    AnalysisState × List SurgeAlert :=
  let st := cleanupOldHistory now st
  let theaterFlights := groupFlights bases dist flights
  theaterFlights.foldl (analyzeStep bases dist now) (st, [])

/-! ## Query accessors (source lines 416-422) -/

/-- `getActiveSurges` (source lines 416-418). -/
def getActiveSurges (st : AnalysisState) : List SurgeAlert :=
  st.activeSurges.map (·.2)

/-- `getTheaterActivity` (source lines 420-422). -/
def getTheaterActivity (st : AnalysisState) (theaterId : String) :
    List TheaterActivity :=
  (mapGet st.activityHistory theaterId).getD []

/-! ## Signal formatting (source lines 424-484) -/

/-- The display-ready record produced by `surgeAlertToSignal`. The
presentation strings (`title`, `description`, emoji labels, fixed-point
formatting) are not modelled; the structured fields are. -/
structure Signal where
  id : String
  type : String
  source : String
  severity : String
  confidence : ℚ
  category : String
  timestamp : Int
  locationLat : ℚ
  locationLon : ℚ
  locationName : String
deriving Repr, DecidableEq

/-- `surgeAlertToSignal` (source lines 424-484), structured fields only:
severity tiers at multiples 4 and 3, capped linear confidence, synthetic id,
first-detected timestamp, theater-center location. -/
def surgeAlertToSignal (surge : SurgeAlert) : Signal :=
  let severity := if 4 ≤ surge.surgeMultiple then "critical"
    else if 3 ≤ surge.surgeMultiple then "high" else "medium"
  let confidence := min (95 / 100 : ℚ) (6 / 10 + (surge.surgeMultiple - 2) * (1 / 10))
  { id := "surge-" ++ surge.id ++ "-" ++ toString surge.firstDetected,
    type := "military_surge",
    source := "Military Flight Tracking",
    severity := severity,
    confidence := confidence,
    category := "military",
    timestamp := surge.firstDetected,
    locationLat := surge.theater.centerLat,
    locationLon := surge.theater.centerLon,
    locationName := surge.theater.name }

/-! ## Helper lemmas on the JS-map model -/

theorem mapGet_mapSet_self {α : Type} (m : List (String × α)) (k : String) (v : α) :
    mapGet (mapSet m k v) k = some v := by
  induction m with
  | nil => simp [mapGet, mapSet, List.find?]
  | cons p rest ih =>
    by_cases h : p.1 == k
    · simp [mapSet, h, mapGet, List.find?]
    · simp only [mapSet, h, Bool.false_eq_true, if_neg, not_false_eq_true]
      simpa [mapGet, List.find?, h] using ih

theorem mem_mapSet {α : Type} {m : List (String × α)} {k : String} {v : α}
    {p : String × α} (hp : p ∈ mapSet m k v) : p = (k, v) ∨ p ∈ m := by
  induction m with
  | nil => simpa [mapSet] using hp
  | cons q rest ih =>
    by_cases h : q.1 == k
    · simp only [mapSet, h, if_pos] at hp
      rcases List.mem_cons.mp hp with h1 | h2
      · exact Or.inl h1
      · exact Or.inr (List.mem_cons_of_mem _ h2)
    · simp only [mapSet, h, Bool.false_eq_true, if_neg, not_false_eq_true] at hp
      rcases List.mem_cons.mp hp with h1 | h2
      · exact Or.inr (h1 ▸ List.mem_cons_self _ _)
      · rcases ih h2 with h3 | h4
        · exact Or.inl h3
        · exact Or.inr (List.mem_cons_of_mem _ h4)

theorem keys_mapSet_subset {α : Type} {m : List (String × α)} {k : String} {v : α}
    {x : String} (hx : x ∈ (mapSet m k v).map Prod.fst) :
    x = k ∨ x ∈ m.map Prod.fst := by
  rcases List.mem_map.mp hx with ⟨p, hp, rfl⟩
  rcases mem_mapSet hp with h1 | h2
  · exact Or.inl (by rw [h1])
  · exact Or.inr (List.mem_map_of_mem _ h2)

theorem nodup_keys_mapSet {α : Type} {m : List (String × α)} (k : String) (v : α)
    (h : (m.map Prod.fst).Nodup) : ((mapSet m k v).map Prod.fst).Nodup := by
  induction m with
  | nil => simp [mapSet]
  | cons p rest ih =>
    simp only [List.map_cons, List.nodup_cons] at h
    by_cases hk : p.1 == k
    · have hkeq : p.1 = k := by simpa using hk
      simp only [mapSet, hk, if_pos, List.map_cons, List.nodup_cons]
      exact ⟨by rw [← hkeq]; exact h.1, h.2⟩
    · have hkne : p.1 ≠ k := by simpa using hk
      simp only [mapSet, hk, Bool.false_eq_true, if_neg, not_false_eq_true,
        List.map_cons, List.nodup_cons]
      refine ⟨fun hmem => ?_, ih h.2⟩
      rcases keys_mapSet_subset hmem with h1 | h2
      · exact hkne h1
      · exact h.1 h2

theorem mapGet_eq_none_iff {α : Type} {m : List (String × α)} {k : String} :
    mapGet m k = none ↔ ∀ p ∈ m, p.1 ≠ k := by
  simp [mapGet, List.find?_eq_none]

/-- The ℚ-valued `reduce` sums of `calculateBaseline` as list sums. -/
theorem foldl_add_cast {α : Type} (f : α → ℕ) (l : List α) (s : ℚ) :
    l.foldl (fun sum h => sum + (f h : ℚ)) s = s + (l.map (fun h => (f h : ℚ))).sum := by
  induction l generalizing s with
  | nil => simp
  | cons a t ih => simp [ih, add_assoc]

/-! ## C2: baseline estimation -/

theorem foldl_transport_sum (l : List TheaterActivity) (s : ℚ) :
    l.foldl (fun sum h => sum + (h.transportCount : ℚ)) s =
      s + (l.map (fun h => (h.transportCount : ℚ))).sum :=
  foldl_add_cast (fun h => h.transportCount) l s

theorem foldl_fighter_sum (l : List TheaterActivity) (s : ℚ) :
    l.foldl (fun sum h => sum + (h.fighterCount : ℚ)) s =
      s + (l.map (fun h => (h.fighterCount : ℚ))).sum :=
  foldl_add_cast (fun h => h.fighterCount) l s

theorem foldl_recon_sum (l : List TheaterActivity) (s : ℚ) :
    l.foldl (fun sum h => sum + (h.reconCount : ℚ)) s =
      s + (l.map (fun h => (h.reconCount : ℚ))).sum :=
  foldl_add_cast (fun h => h.reconCount) l s

/-- C2: the baseline estimator filters the theater's history to the trailing
48-hour window; with fewer than 6 qualifying samples it returns the fixed
defaults (3/2/1), otherwise the per-category arithmetic mean floored at the
per-category minimum (2/1/1); the returned counts never fall below those
floors. -/
theorem calculateBaseline_spec
    (activityHistory : List (String × List TheaterActivity)) (now : Int)
    (theaterId : String) :
    ((((mapGet activityHistory theaterId).getD []).filter
        (fun h => now - 48 * 60 * 60 * 1000 ≤ h.timestamp)).length < 6 →
      calculateBaseline activityHistory now theaterId =
        { transport := 3, fighter := 2, recon := 1 }) ∧
    (6 ≤ (((mapGet activityHistory theaterId).getD []).filter
        (fun h => now - 48 * 60 * 60 * 1000 ≤ h.timestamp)).length →
      calculateBaseline activityHistory now theaterId =
        { transport := max 2
            (((((mapGet activityHistory theaterId).getD []).filter
                (fun h => now - 48 * 60 * 60 * 1000 ≤ h.timestamp)).map
                (fun h => (h.transportCount : ℚ))).sum /
              ((((mapGet activityHistory theaterId).getD []).filter
                (fun h => now - 48 * 60 * 60 * 1000 ≤ h.timestamp)).length : ℚ)),
          fighter := max 1
            (((((mapGet activityHistory theaterId).getD []).filter
                (fun h => now - 48 * 60 * 60 * 1000 ≤ h.timestamp)).map
                (fun h => (h.fighterCount : ℚ))).sum /
              ((((mapGet activityHistory theaterId).getD []).filter
                (fun h => now - 48 * 60 * 60 * 1000 ≤ h.timestamp)).length : ℚ)),
          recon := max 1
            (((((mapGet activityHistory theaterId).getD []).filter
                (fun h => now - 48 * 60 * 60 * 1000 ≤ h.timestamp)).map
                (fun h => (h.reconCount : ℚ))).sum /
              ((((mapGet activityHistory theaterId).getD []).filter
                (fun h => now - 48 * 60 * 60 * 1000 ≤ h.timestamp)).length : ℚ)) }) ∧
    2 ≤ (calculateBaseline activityHistory now theaterId).transport ∧
    1 ≤ (calculateBaseline activityHistory now theaterId).fighter ∧
    1 ≤ (calculateBaseline activityHistory now theaterId).recon := by
  refine ⟨fun hlt => ?_, fun hge => ?_, ?_⟩
  · unfold calculateBaseline
    simp only [BASELINE_WINDOW_HOURS, BASELINE_MIN_SAMPLES]
    rw [if_pos hlt]
  · unfold calculateBaseline
    simp only [BASELINE_WINDOW_HOURS, BASELINE_MIN_SAMPLES]
    rw [if_neg (by omega)]
    rw [foldl_transport_sum, foldl_fighter_sum, foldl_recon_sum]
    simp
  · unfold calculateBaseline
    simp only [BASELINE_WINDOW_HOURS, BASELINE_MIN_SAMPLES]
    split
    · refine ⟨by norm_num, by norm_num, by norm_num⟩
    · exact ⟨le_max_left _ _, le_max_left _ _, le_max_left _ _⟩

/-- Witness for C2 at a concrete input: the empty history has fewer than 6
qualifying samples, so the defaults are returned and respect the floors. -/
theorem calculateBaseline_spec_witness :
    calculateBaseline [] 0 "middle-east" = { transport := 3, fighter := 2, recon := 1 } ∧
    2 ≤ (calculateBaseline [] 0 "middle-east").transport := by
  have h := calculateBaseline_spec [] 0 "middle-east"
  exact ⟨h.1 (by decide), h.2.2.1⟩

/-! ## C9: signal severity and confidence -/

/-- C9: the signal formatter assigns severity by surge-multiple tier
(critical at ≥ 4, high at ≥ 3, medium below) and confidence
min(0.95, 0.6 + (multiple − 2)·0.1); in particular multiple 2 gives
medium/0.6 and multiple 4 gives critical/0.8. -/
theorem surgeAlertToSignal_spec (a : SurgeAlert) :
    ((surgeAlertToSignal a).severity = "critical" ↔ 4 ≤ a.surgeMultiple) ∧
    ((surgeAlertToSignal a).severity = "high" ↔
      3 ≤ a.surgeMultiple ∧ a.surgeMultiple < 4) ∧
    ((surgeAlertToSignal a).severity = "medium" ↔ a.surgeMultiple < 3) ∧
    (surgeAlertToSignal a).confidence =
      min (95 / 100 : ℚ) (6 / 10 + (a.surgeMultiple - 2) * (1 / 10)) ∧
    (a.surgeMultiple = 2 → (surgeAlertToSignal a).severity = "medium" ∧
      (surgeAlertToSignal a).confidence = 6 / 10) ∧
    (a.surgeMultiple = 4 → (surgeAlertToSignal a).severity = "critical" ∧
      (surgeAlertToSignal a).confidence = 8 / 10) := by
  have hconf : (surgeAlertToSignal a).confidence =
      min (95 / 100 : ℚ) (6 / 10 + (a.surgeMultiple - 2) * (1 / 10)) := by
    simp [surgeAlertToSignal]
  have hsev : (surgeAlertToSignal a).severity =
      (if 4 ≤ a.surgeMultiple then "critical"
       else if 3 ≤ a.surgeMultiple then "high" else "medium") := by
    simp [surgeAlertToSignal]
  refine ⟨?_, ?_, ?_, hconf, fun h2 => ?_, fun h4 => ?_⟩
  · rw [hsev]
    split_ifs with h1 h2
    · simp [h1]
    · simp only [String.reduceEq, false_iff]
      exact h1
    · simp only [String.reduceEq, false_iff]
      exact h1
  · rw [hsev]
    split_ifs with h1 h2
    · simp only [String.reduceEq, false_iff, not_and, not_lt]
      exact fun _ => h1
    · simp only [true_iff]
      exact ⟨h2, lt_of_not_le h1⟩
    · simp only [String.reduceEq, false_iff, not_and]
      exact fun h => absurd h h2
  · rw [hsev]
    split_ifs with h1 h2
    · simp only [String.reduceEq, false_iff, not_lt]
      linarith
    · simp only [String.reduceEq, false_iff, not_lt]
      exact h2
    · simp only [true_iff]
      exact lt_of_not_le h2
  · rw [hsev, hconf, h2]
    norm_num
  · rw [hsev, hconf, h4]
    norm_num

/-- A concrete alert with surge multiple 2, used as the C9 witness input. -/
def sampleAlert : SurgeAlert where
  id := "airlift-middle-east"
  theater := { id := "middle-east", name := "Middle East / Persian Gulf",
               baseIds := [], centerLat := 27, centerLon := 50 }
  type := SurgeType.airlift
  currentCount := 6
  baselineCount := 3
  surgeMultiple := 2
  aircraftTypes := []
  nearbyBases := []
  firstDetected := 0
  lastUpdated := 0

/-- Witness for C9: a concrete alert with surge multiple 2 is rendered with
severity medium and confidence 0.6. -/
theorem surgeAlertToSignal_spec_witness :
    (surgeAlertToSignal sampleAlert).severity = "medium" ∧
    (surgeAlertToSignal sampleAlert).confidence = 6 / 10 :=
  (surgeAlertToSignal_spec sampleAlert).2.2.2.2.1 rfl

/-! ## C3 / C4: theater resolution -/

theorem mapGet_eq_some_mem {α : Type} {m : List (String × α)} {k : String} {v : α}
    (h : mapGet m k = some v) : ∃ p ∈ m, p.1 = k ∧ p.2 = v := by
  unfold mapGet at h
  cases hf : m.find? (fun p => p.1 == k) with
  | none => rw [hf] at h; simp at h
  | some q =>
    rw [hf] at h
    refine ⟨q, List.mem_of_find?_eq_some hf, ?_, by simpa using h⟩
    simpa using List.find?_some hf

theorem findNearbyBases_perm (bases : List Base) (dist : DistFun) (lat lon : ℚ) :
    (findNearbyBases bases dist lat lon).Perm
      (bases.filterMap (fun b =>
        if dist lat lon b.lat b.lon ≤ PROXIMITY_RADIUS_KM then
          some ⟨b.id, b.name, dist lat lon b.lat b.lon⟩ else none)) := by
  unfold findNearbyBases
  exact List.mergeSort_perm _ _

theorem mem_findNearbyBases {bases : List Base} {dist : DistFun} {lat lon : ℚ}
    {nb : NearbyBase} :
    nb ∈ findNearbyBases bases dist lat lon ↔
      ∃ b ∈ bases, dist lat lon b.lat b.lon ≤ 150 ∧
        nb = ⟨b.id, b.name, dist lat lon b.lat b.lon⟩ := by
  rw [(findNearbyBases_perm bases dist lat lon).mem_iff, List.mem_filterMap]
  constructor
  · rintro ⟨b, hb, hif⟩
    by_cases hd : dist lat lon b.lat b.lon ≤ PROXIMITY_RADIUS_KM
    · rw [if_pos hd] at hif
      exact ⟨b, hb, hd, (Option.some.inj hif).symm⟩
    · rw [if_neg hd] at hif
      exact absurd hif (Option.noConfusion)
  · rintro ⟨b, hb, hd, rfl⟩
    exact ⟨b, hb, by
      rw [if_pos (show dist lat lon b.lat b.lon ≤ PROXIMITY_RADIUS_KM from hd)]⟩

theorem findNearbyBases_sorted (bases : List Base) (dist : DistFun) (lat lon : ℚ) :
    List.Sorted (fun a b : NearbyBase => a.distance ≤ b.distance)
      (findNearbyBases bases dist lat lon) := by
  unfold findNearbyBases
  have h := @List.sorted_mergeSort NearbyBase
    (fun a b : NearbyBase => decide (a.distance ≤ b.distance))
    (fun a b c hab hbc => by
      simp only [decide_eq_true_eq] at hab hbc ⊢
      exact le_trans hab hbc)
    (fun a b => by
      simp only [Bool.or_eq_true, decide_eq_true_eq]
      exact le_total _ _)
    (bases.filterMap (fun b =>
      if dist lat lon b.lat b.lon ≤ PROXIMITY_RADIUS_KM then
        some ⟨b.id, b.name, dist lat lon b.lat b.lon⟩ else none))
  exact h.imp (fun hab => by simpa using hab)

/-- C3: a flight within 150 km of a base belonging to theater `T` resolves
to `T` regardless of theater-center distances (the `hall` hypothesis says
`T` is the theater owning the in-range bases, as in the geographically
separated catalog); nearby bases are considered closest first. -/
theorem getTheaterForFlight_base_priority (bases : List Base) (dist : DistFun)
    (flight : MilitaryFlight) (T : MilitaryTheater) (b : Base)
    (hb : b ∈ bases)
    (hd : dist flight.lat flight.lon b.lat b.lon ≤ 150)
    (hT : getTheaterForBase b.id = some T)
    (hall : ∀ b' ∈ bases, dist flight.lat flight.lon b'.lat b'.lon ≤ 150 →
      ∀ T', getTheaterForBase b'.id = some T' → T' = T) :
    getTheaterForFlight bases dist flight = some T ∧
    List.Sorted (fun a b : NearbyBase => a.distance ≤ b.distance)
      (findNearbyBases bases dist flight.lat flight.lon) := by
  refine ⟨?_, findNearbyBases_sorted bases dist flight.lat flight.lon⟩
  have hmem : (⟨b.id, b.name, dist flight.lat flight.lon b.lat b.lon⟩ : NearbyBase) ∈
      findNearbyBases bases dist flight.lat flight.lon :=
    mem_findNearbyBases.mpr ⟨b, hb, hd, rfl⟩
  cases hfs : (findNearbyBases bases dist flight.lat flight.lon).findSome?
      (fun nb => getTheaterForBase nb.baseId) with
  | none =>
    exfalso
    have hnone := List.findSome?_eq_none_iff.mp hfs _ hmem
    rw [hT] at hnone
    exact Option.noConfusion hnone
  | some t =>
    rcases List.exists_of_findSome?_eq_some hfs with ⟨nb, hnb, hnbT⟩
    rcases mem_findNearbyBases.mp hnb with ⟨b', hb', hd', rfl⟩
    have ht : t = T := hall b' hb' hd' t hnbT
    simp only [getTheaterForFlight]
    rw [hfs, ht]

/-- The Western Europe theater of the catalog. -/
def europeWest : MilitaryTheater :=
  { id := "europe-west",
    name := "Western Europe",
    baseIds := ["ramstein", "spangdahlem", "usag_stuttgart", "raf_lakenheath",
                "raf_mildenhall", "aviano"],
    centerLat := 50, centerLon := 8 }

def wBase : Base := { id := "ramstein", name := "Ramstein Air Base", lat := 49, lon := 7 }

def wDist : DistFun := fun _ _ _ _ => 100

def wFlight : MilitaryFlight :=
  { id := "w1", callsign := "RCH101", aircraftType := "transport",
    aircraftModel := none, lat := 49, lon := 7 }

/-- Witness for C3: a flight 100 km from Ramstein resolves to Western
Europe. -/
theorem getTheaterForFlight_base_priority_witness :
    getTheaterForFlight [wBase] wDist wFlight = some europeWest := by
  have hT : getTheaterForBase wBase.id = some europeWest := by decide
  refine (getTheaterForFlight_base_priority [wBase] wDist wFlight europeWest wBase
    (by decide) (by decide) hT ?_).1
  intro b' hb' _ T' hT'
  have hb'eq : b' = wBase := by simpa using hb'
  subst hb'eq
  rw [hT] at hT'
  exact (Option.some.inj hT').symm

/-- Every flight stored in a group of `groupFlights` resolved to a theater. -/
theorem groupFlights_mem_resolved (bases : List Base) (dist : DistFun)
    (flights : List MilitaryFlight) :
    ∀ p ∈ groupFlights bases dist flights, ∀ g ∈ p.2,
      (getTheaterForFlight bases dist g).isSome := by
  suffices h : ∀ (m : List (String × List MilitaryFlight)),
      (∀ p ∈ m, ∀ g ∈ p.2, (getTheaterForFlight bases dist g).isSome) →
      ∀ p ∈ flights.foldl (fun m flight =>
        match getTheaterForFlight bases dist flight with
        | none => m
        | some theater => mapSet m theater.id ((mapGet m theater.id).getD [] ++ [flight])) m,
      ∀ g ∈ p.2, (getTheaterForFlight bases dist g).isSome by
    exact h [] (by simp)
  induction flights with
  | nil => intro m hm; simpa using hm
  | cons f fs ih =>
    intro m hm
    simp only [List.foldl_cons]
    apply ih
    cases hres : getTheaterForFlight bases dist f with
    | none => simpa [hres] using hm
    | some th =>
      simp only [hres]
      intro p hp g hg
      rcases mem_mapSet hp with rfl | hpm
      · rcases List.mem_append.mp hg with hg1 | hg2
        · cases hmg : mapGet m th.id with
          | none => rw [hmg] at hg1; simp at hg1
          | some old =>
            rw [hmg] at hg1
            simp only [Option.getD_some] at hg1
            rcases mapGet_eq_some_mem hmg with ⟨q, hq, _, hqv⟩
            exact hm q hq g (hqv ▸ hg1)
        · have : g = f := by simpa using hg2
          subst this
          simp [hres]
      · exact hm p hpm g hg

/-- C4 counterexample input: no base catalog, and center distances putting
the flight 1400 km from the Middle East center but only 700 km from the
Horn of Africa center. -/
def cDist : DistFun := fun _ _ la2 lo2 =>
  if la2 = 27 ∧ lo2 = 50 then 1400
  else if la2 = 10 ∧ lo2 = 40 then 700
  else 2000

def cFlight : MilitaryFlight :=
  { id := "cx", callsign := "CX1", aircraftType := "transport",
    aircraftModel := none, lat := 15, lon := 44 }

/-- C4 counterexample: the fallback returns the FIRST theater of the catalog
whose center is within 1500 km (here the Middle East), not the nearest one
(here the Horn of Africa at 700 km < 1400 km). -/
theorem getTheaterForFlight_not_nearest :
    (getTheaterForFlight [] cDist cFlight).map (fun t => t.id) = some "middle-east" ∧
    (∃ t ∈ THEATERS, t.id = "africa-horn" ∧
      cDist cFlight.lat cFlight.lon t.centerLat t.centerLon = 700 ∧
      cDist cFlight.lat cFlight.lon t.centerLat t.centerLon < 1500) ∧
    (∃ t ∈ THEATERS, t.id = "middle-east" ∧
      cDist cFlight.lat cFlight.lon t.centerLat t.centerLon = 1400) ∧
    (700 : ℚ) < 1400 := by
  refine ⟨?_, by decide, by decide, by norm_num⟩
  simp only [getTheaterForFlight, findNearbyBases, List.filterMap_nil,
    List.mergeSort_nil, List.findSome?_nil]
  decide

/-- C4 (amended): when no nearby base resolves a theater, the function
returns the first theater in catalog order whose center is strictly within
1500 km; when every center is at least 1500 km away it returns none, and
unresolved flights are silently excluded from grouping. -/
theorem getTheaterForFlight_center_fallback (bases : List Base) (dist : DistFun)
    (flight : MilitaryFlight)
    (hnb : ∀ nb ∈ findNearbyBases bases dist flight.lat flight.lon,
      getTheaterForBase nb.baseId = none) :
    getTheaterForFlight bases dist flight =
      THEATERS.find? (fun t =>
        dist flight.lat flight.lon t.centerLat t.centerLon < 1500) ∧
    ((∀ t ∈ THEATERS, ¬ dist flight.lat flight.lon t.centerLat t.centerLon < 1500) →
      getTheaterForFlight bases dist flight = none) ∧
    (∀ flights : List MilitaryFlight,
      getTheaterForFlight bases dist flight = none →
      ∀ p ∈ groupFlights bases dist flights, flight ∉ p.2) := by
  have hfs : (findNearbyBases bases dist flight.lat flight.lon).findSome?
      (fun nb => getTheaterForBase nb.baseId) = none :=
    List.findSome?_eq_none_iff.mpr hnb
  have hmain : getTheaterForFlight bases dist flight =
      THEATERS.find? (fun t =>
        dist flight.lat flight.lon t.centerLat t.centerLon < 1500) := by
    simp only [getTheaterForFlight]
    rw [hfs]
  refine ⟨hmain, fun hfar => ?_, fun flights hnone p hp hmem => ?_⟩
  · rw [hmain]
    exact List.find?_eq_none.mpr (fun t ht => by simpa using hfar t ht)
  · have := groupFlights_mem_resolved bases dist flights p hp flight hmem
    rw [hnone] at this
    exact Bool.noConfusion this

def wFarDist : DistFun := fun _ _ _ _ => 2000

/-- Witness for C4 (amended): with every center 2000 km away and no bases,
the flight is unassigned and dropped from grouping. -/
theorem getTheaterForFlight_center_fallback_witness :
    getTheaterForFlight [] wFarDist cFlight = none ∧
    ∀ p ∈ groupFlights [] wFarDist [cFlight], cFlight ∉ p.2 := by
  have h := getTheaterForFlight_center_fallback [] wFarDist cFlight
    (by intro nb hnb; simp [findNearbyBases] at hnb)
  have hnone : getTheaterForFlight [] wFarDist cFlight = none :=
    h.2.1 (by decide)
  exact ⟨hnone, h.2.2 [cFlight] hnone⟩

/-! ## C1 / C5 / C10: surge detection and alert lifecycle -/

/-- The alert created by the airlift branch at source lines 373-384. -/
def mkAirliftAlert (theater : MilitaryTheater) (ag : Aggregation)
    (baseline : Baseline) (now : Int) : SurgeAlert :=
  { id := "airlift-" ++ theater.id
    theater := theater
    type := SurgeType.airlift
    currentCount := ag.transportCount
    baselineCount := jsRound baseline.transport
    surgeMultiple := (ag.transportCount : ℚ) / baseline.transport
    aircraftTypes := ag.aircraftTypes
    nearbyBases := ag.nearbyBases
    firstDetected := now
    lastUpdated := now }

/-- The alert created by the fighter branch at source lines 395-406. -/
def mkFighterAlert (theater : MilitaryTheater) (ag : Aggregation)
    (baseline : Baseline) (now : Int) : SurgeAlert :=
  { id := "fighter-" ++ theater.id
    theater := theater
    type := SurgeType.fighter
    currentCount := ag.fighterCount
    baselineCount := jsRound baseline.fighter
    surgeMultiple := (ag.fighterCount : ℚ) / baseline.fighter
    aircraftTypes := ag.aircraftTypes
    nearbyBases := ag.nearbyBases
    firstDetected := now
    lastUpdated := now }

/-- The in-place field rewrite of the airlift branch at source lines
367-371. -/
def updatedAirliftAlert (old : SurgeAlert) (ag : Aggregation)
    (baseline : Baseline) (now : Int) : SurgeAlert :=
  { old with
    currentCount := ag.transportCount
    surgeMultiple := (ag.transportCount : ℚ) / baseline.transport
    aircraftTypes := ag.aircraftTypes
    nearbyBases := ag.nearbyBases
    lastUpdated := now }

theorem airliftStep_eq (theater : MilitaryTheater) (ag : Aggregation)
    (baseline : Baseline) (now : Int) (surges : List (String × SurgeAlert))
    (newAlerts : List SurgeAlert) :
    airliftStep theater ag baseline now surges newAlerts =
      if baseline.transport * SURGE_THRESHOLD ≤ (ag.transportCount : ℚ) ∧
          5 ≤ ag.transportCount then
        match mapGet surges ("airlift-" ++ theater.id) with
        | some old =>
          (mapSet surges ("airlift-" ++ theater.id)
            (updatedAirliftAlert old ag baseline now), newAlerts)
        | none =>
          (mapSet surges ("airlift-" ++ theater.id)
            (mkAirliftAlert theater ag baseline now),
           newAlerts ++ [mkAirliftAlert theater ag baseline now])
      else (surges, newAlerts) := by
  simp only [airliftStep, mkAirliftAlert, updatedAirliftAlert]

theorem fighterStep_eq (theater : MilitaryTheater) (ag : Aggregation)
    (baseline : Baseline) (now : Int) (surges : List (String × SurgeAlert))
    (newAlerts : List SurgeAlert) :
    fighterStep theater ag baseline now surges newAlerts =
      if baseline.fighter * SURGE_THRESHOLD ≤ (ag.fighterCount : ℚ) ∧
          4 ≤ ag.fighterCount then
        if (mapGet surges ("fighter-" ++ theater.id)).isSome then
          (surges, newAlerts)
        else
          (mapSet surges ("fighter-" ++ theater.id)
            (mkFighterAlert theater ag baseline now),
           newAlerts ++ [mkFighterAlert theater ag baseline now])
      else (surges, newAlerts) := by
  simp only [fighterStep, mkFighterAlert]

theorem airliftStep_newAlerts_mem (theater : MilitaryTheater) (ag : Aggregation)
    (baseline : Baseline) (now : Int) (surges : List (String × SurgeAlert))
    (newAlerts : List SurgeAlert) :
    ∀ a ∈ (airliftStep theater ag baseline now surges newAlerts).2,
      a ∈ newAlerts ∨ a.firstDetected = now := by
  intro a ha
  rw [airliftStep_eq] at ha
  by_cases hc : baseline.transport * SURGE_THRESHOLD ≤ (ag.transportCount : ℚ) ∧
      5 ≤ ag.transportCount
  · rw [if_pos hc] at ha
    cases hm : mapGet surges ("airlift-" ++ theater.id) with
    | none =>
      rw [hm] at ha
      rcases List.mem_append.mp ha with h1 | h2
      · exact Or.inl h1
      · right
        rw [List.mem_singleton.mp h2]
        rfl
    | some ex =>
      rw [hm] at ha
      exact Or.inl ha
  · rw [if_neg hc] at ha
    exact Or.inl ha

theorem fighterStep_newAlerts_mem (theater : MilitaryTheater) (ag : Aggregation)
    (baseline : Baseline) (now : Int) (surges : List (String × SurgeAlert))
    (newAlerts : List SurgeAlert) :
    ∀ a ∈ (fighterStep theater ag baseline now surges newAlerts).2,
      a ∈ newAlerts ∨ a.firstDetected = now := by
  intro a ha
  rw [fighterStep_eq] at ha
  by_cases hc : baseline.fighter * SURGE_THRESHOLD ≤ (ag.fighterCount : ℚ) ∧
      4 ≤ ag.fighterCount
  · rw [if_pos hc] at ha
    by_cases hm : (mapGet surges ("fighter-" ++ theater.id)).isSome
    · rw [if_pos hm] at ha
      exact Or.inl ha
    · rw [if_neg hm] at ha
      rcases List.mem_append.mp ha with h1 | h2
      · exact Or.inl h1
      · right
        rw [List.mem_singleton.mp h2]
        rfl
  · rw [if_neg hc] at ha
    exact Or.inl ha

theorem analyzeStep_newAlerts_mem (bases : List Base) (dist : DistFun) (now : Int)
    (st : AnalysisState) (acc : List SurgeAlert)
    (entry : String × List MilitaryFlight) :
    ∀ a ∈ (analyzeStep bases dist now (st, acc) entry).2,
      a ∈ acc ∨ a.firstDetected = now := by
  simp only [analyzeStep]
  cases hth : THEATERS.find? (fun t => t.id == entry.1) with
  | none =>
    intro a ha
    exact Or.inl ha
  | some theater =>
    dsimp only
    intro a ha
    rcases fighterStep_newAlerts_mem theater (aggregate bases dist entry.2)
        (calculateBaseline
          (updateHistory st entry.1 (mkActivity bases dist now entry.1 entry.2)).activityHistory
          now entry.1)
        now _ _ a ha with h2 | h2
    · exact airliftStep_newAlerts_mem theater (aggregate bases dist entry.2)
        (calculateBaseline
          (updateHistory st entry.1 (mkActivity bases dist now entry.1 entry.2)).activityHistory
          now entry.1)
        now (updateHistory st entry.1 (mkActivity bases dist now entry.1 entry.2)).activeSurges
        acc a h2
    · exact Or.inr h2

theorem analyze_foldl_fresh (bases : List Base) (dist : DistFun) (now : Int)
    (groups : List (String × List MilitaryFlight)) :
    ∀ (start : AnalysisState × List SurgeAlert),
      (∀ a ∈ start.2, a.firstDetected = now) →
      ∀ a ∈ (groups.foldl (analyzeStep bases dist now) start).2,
        a.firstDetected = now := by
  induction groups with
  | nil =>
    intro s hs
    simpa using hs
  | cons g gs ih =>
    intro s hs
    simp only [List.foldl_cons]
    rcases s with ⟨st, acc⟩
    apply ih
    intro a ha
    rcases analyzeStep_newAlerts_mem bases dist now st acc g a ha with h1 | h2
    · exact hs a h1
    · exact h2

/-- C1: the airlift surge triggers exactly when transportCount is at least
twice the transport baseline and at least 5; on a fresh key the alert is
created, registered under `airlift-<theaterId>` and returned; on an existing
key the alert is updated in place (count, multiple, histogram, bases,
last-updated) and NOT returned; and every alert the analysis operation
returns was created this cycle (its first-detected timestamp is the cycle's
`now`). -/
theorem airlift_surge_spec (theater : MilitaryTheater) (ag : Aggregation)
    (baseline : Baseline) (now : Int) (surges : List (String × SurgeAlert))
    (newAlerts : List SurgeAlert) (bases : List Base) (dist : DistFun)
    (st : AnalysisState) (flights : List MilitaryFlight) :
    (¬ (baseline.transport * 2 ≤ (ag.transportCount : ℚ) ∧ 5 ≤ ag.transportCount) →
      airliftStep theater ag baseline now surges newAlerts = (surges, newAlerts)) ∧
    ((baseline.transport * 2 ≤ (ag.transportCount : ℚ) ∧ 5 ≤ ag.transportCount) →
      (mapGet surges ("airlift-" ++ theater.id) = none →
        airliftStep theater ag baseline now surges newAlerts =
          (mapSet surges ("airlift-" ++ theater.id)
            (mkAirliftAlert theater ag baseline now),
           newAlerts ++ [mkAirliftAlert theater ag baseline now]) ∧
        mapGet (airliftStep theater ag baseline now surges newAlerts).1
            ("airlift-" ++ theater.id) =
          some (mkAirliftAlert theater ag baseline now)) ∧
      (∀ old, mapGet surges ("airlift-" ++ theater.id) = some old →
        airliftStep theater ag baseline now surges newAlerts =
          (mapSet surges ("airlift-" ++ theater.id)
            (updatedAirliftAlert old ag baseline now), newAlerts))) ∧
    (∀ a ∈ (analyzeFlightsForSurge bases dist now st flights).2,
      a.firstDetected = now) := by
  have hcond : (baseline.transport * 2 ≤ (ag.transportCount : ℚ) ∧
      5 ≤ ag.transportCount) =
      (baseline.transport * SURGE_THRESHOLD ≤ (ag.transportCount : ℚ) ∧
        5 ≤ ag.transportCount) := by
    rw [SURGE_THRESHOLD]
  refine ⟨fun hnc => ?_, fun hc => ⟨fun hnone => ?_, fun old hold => ?_⟩, ?_⟩
  · rw [airliftStep_eq, if_neg (hcond ▸ hnc)]
  · have heq : airliftStep theater ag baseline now surges newAlerts =
        (mapSet surges ("airlift-" ++ theater.id)
          (mkAirliftAlert theater ag baseline now),
         newAlerts ++ [mkAirliftAlert theater ag baseline now]) := by
      rw [airliftStep_eq, if_pos (hcond ▸ hc), hnone]
    refine ⟨heq, ?_⟩
    rw [heq]
    exact mapGet_mapSet_self _ _ _
  · rw [airliftStep_eq, if_pos (hcond ▸ hc), hold]
  · intro a ha
    unfold analyzeFlightsForSurge at ha
    exact analyze_foldl_fresh bases dist now (groupFlights bases dist flights)
      (cleanupOldHistory now st, []) (by simp) a ha

def wTheater : MilitaryTheater :=
  { id := "t1", name := "T1", baseIds := [], centerLat := 0, centerLon := 0 }

def wAg : Aggregation :=
  { transportCount := 6
    fighterCount := 0
    reconCount := 0
    aircraftTypes := [("transport", 6)]
    nearbyBases := [] }

def wBaseline : Baseline := { transport := 3, fighter := 2, recon := 1 }

def wAlert : SurgeAlert :=
  { id := "airlift-t1"
    theater := wTheater
    type := SurgeType.airlift
    currentCount := 6
    baselineCount := 3
    surgeMultiple := 2
    aircraftTypes := [("transport", 6)]
    nearbyBases := []
    firstDetected := 5
    lastUpdated := 5 }

/-- Witness for C1: six transports against baseline 3 on an empty alert map
create, register and return one airlift alert. -/
theorem airlift_surge_spec_witness :
    airliftStep wTheater wAg wBaseline 5 [] [] = ([("airlift-t1", wAlert)], [wAlert]) := by
  have h := ((airlift_surge_spec wTheater wAg wBaseline 5 [] [] []
    (fun _ _ _ _ => 0) ⟨[], [], 0⟩ []).2.1 (by norm_num [wBaseline, wAg])).1 (by decide)
  rw [h.1]
  have halert : mkAirliftAlert wTheater wAg wBaseline 5 = wAlert := by
    simp only [mkAirliftAlert, wAlert, wTheater, wAg, wBaseline, jsRound]
    norm_num
    rfl
  rw [halert]
  rfl

/-- C5: the fighter surge triggers exactly when fighterCount is at least
twice the fighter baseline and at least 4; an existing `fighter-<theaterId>`
alert is left completely untouched (neither the stored alert nor the
returned list changes), and only a fresh key yields a created, registered
and returned alert — in contrast to the airlift path, which rewrites the
stored alert every cycle. -/
theorem fighter_surge_spec (theater : MilitaryTheater) (ag : Aggregation)
    (baseline : Baseline) (now : Int) (surges : List (String × SurgeAlert))
    (newAlerts : List SurgeAlert) :
    (¬ (baseline.fighter * 2 ≤ (ag.fighterCount : ℚ) ∧ 4 ≤ ag.fighterCount) →
      fighterStep theater ag baseline now surges newAlerts = (surges, newAlerts)) ∧
    ((baseline.fighter * 2 ≤ (ag.fighterCount : ℚ) ∧ 4 ≤ ag.fighterCount) →
      (∀ old, mapGet surges ("fighter-" ++ theater.id) = some old →
        fighterStep theater ag baseline now surges newAlerts = (surges, newAlerts) ∧
        mapGet (fighterStep theater ag baseline now surges newAlerts).1
          ("fighter-" ++ theater.id) = some old) ∧
      (mapGet surges ("fighter-" ++ theater.id) = none →
        fighterStep theater ag baseline now surges newAlerts =
          (mapSet surges ("fighter-" ++ theater.id)
            (mkFighterAlert theater ag baseline now),
           newAlerts ++ [mkFighterAlert theater ag baseline now]))) ∧
    (∀ old, mapGet surges ("airlift-" ++ theater.id) = some old →
      (baseline.transport * 2 ≤ (ag.transportCount : ℚ) ∧ 5 ≤ ag.transportCount) →
      mapGet (airliftStep theater ag baseline now surges newAlerts).1
          ("airlift-" ++ theater.id) =
        some (updatedAirliftAlert old ag baseline now)) := by
  have hcond : (baseline.fighter * 2 ≤ (ag.fighterCount : ℚ) ∧
      4 ≤ ag.fighterCount) =
      (baseline.fighter * SURGE_THRESHOLD ≤ (ag.fighterCount : ℚ) ∧
        4 ≤ ag.fighterCount) := by
    rw [SURGE_THRESHOLD]
  refine ⟨fun hnc => ?_, fun hc => ⟨fun old hold => ?_, fun hnone => ?_⟩,
    fun old hold hca => ?_⟩
  · rw [fighterStep_eq, if_neg (hcond ▸ hnc)]
  · have heq : fighterStep theater ag baseline now surges newAlerts =
        (surges, newAlerts) := by
      rw [fighterStep_eq, if_pos (hcond ▸ hc), if_pos (by rw [hold]; rfl)]
    refine ⟨heq, ?_⟩
    rw [heq]
    exact hold
  · rw [fighterStep_eq, if_pos (hcond ▸ hc), if_neg (by rw [hnone]; simp)]
  · have hca' : baseline.transport * SURGE_THRESHOLD ≤ (ag.transportCount : ℚ) ∧
        5 ≤ ag.transportCount := by
      rw [SURGE_THRESHOLD]
      exact hca
    rw [airliftStep_eq, if_pos hca', hold]
    exact mapGet_mapSet_self _ _ _

def wAgF : Aggregation :=
  { transportCount := 0
    fighterCount := 4
    reconCount := 0
    aircraftTypes := [("fighter", 4)]
    nearbyBases := [] }

def wAlertF : SurgeAlert :=
  { id := "fighter-t1"
    theater := wTheater
    type := SurgeType.fighter
    currentCount := 4
    baselineCount := 2
    surgeMultiple := 2
    aircraftTypes := [("fighter", 4)]
    nearbyBases := []
    firstDetected := 5
    lastUpdated := 5 }

/-- Witness for C5: with an existing fighter alert under the key, a
triggering cycle changes nothing at all. -/
theorem fighter_surge_spec_witness :
    fighterStep wTheater wAgF wBaseline 9 [("fighter-t1", wAlertF)] [] =
      ([("fighter-t1", wAlertF)], []) :=
  (((fighter_surge_spec wTheater wAgF wBaseline 9 [("fighter-t1", wAlertF)] []).2.1
    (by norm_num [wBaseline, wAgF])).1 wAlertF (by decide)).1

/-- C10: updating an existing airlift alert in place preserves its id,
theater, type, first-detected timestamp and creation-time baselineCount;
only currentCount, surgeMultiple, aircraftTypes, nearbyBases and lastUpdated
are rewritten, with the new multiple computed against the current cycle's
baseline. -/
theorem airlift_update_frame (theater : MilitaryTheater) (ag : Aggregation)
    (baseline : Baseline) (now : Int) (surges : List (String × SurgeAlert))
    (newAlerts : List SurgeAlert) (old : SurgeAlert)
    (hc : baseline.transport * 2 ≤ (ag.transportCount : ℚ) ∧ 5 ≤ ag.transportCount)
    (hold : mapGet surges ("airlift-" ++ theater.id) = some old) :
    ∃ u, mapGet (airliftStep theater ag baseline now surges newAlerts).1
        ("airlift-" ++ theater.id) = some u ∧
      u.id = old.id ∧ u.theater = old.theater ∧ u.type = old.type ∧
      u.firstDetected = old.firstDetected ∧ u.baselineCount = old.baselineCount ∧
      u.currentCount = ag.transportCount ∧
      u.surgeMultiple = (ag.transportCount : ℚ) / baseline.transport ∧
      u.aircraftTypes = ag.aircraftTypes ∧ u.nearbyBases = ag.nearbyBases ∧
      u.lastUpdated = now ∧
      (airliftStep theater ag baseline now surges newAlerts).2 = newAlerts := by
  have hca : baseline.transport * SURGE_THRESHOLD ≤ (ag.transportCount : ℚ) ∧
      5 ≤ ag.transportCount := by
    rw [SURGE_THRESHOLD]
    exact hc
  refine ⟨updatedAirliftAlert old ag baseline now, ?_,
    rfl, rfl, rfl, rfl, rfl, rfl, rfl, rfl, rfl, rfl, ?_⟩
  · rw [airliftStep_eq, if_pos hca, hold]
    exact mapGet_mapSet_self _ _ _
  · rw [airliftStep_eq, if_pos hca, hold]

def wAlertOld : SurgeAlert :=
  { id := "airlift-t1"
    theater := wTheater
    type := SurgeType.airlift
    currentCount := 5
    baselineCount := 2
    surgeMultiple := 3
    aircraftTypes := [("transport", 5)]
    nearbyBases := ["B1"]
    firstDetected := 1
    lastUpdated := 1 }

/-- Witness for C10: the in-place update at a concrete input keeps the
creation-time fields of the stored alert. -/
theorem airlift_update_frame_witness :
    ∃ u, mapGet (airliftStep wTheater wAg wBaseline 9
        [("airlift-t1", wAlertOld)] []).1 "airlift-t1" = some u ∧
      u.baselineCount = 2 ∧ u.firstDetected = 1 ∧ u.currentCount = 6 ∧
      u.lastUpdated = 9 := by
  rcases airlift_update_frame wTheater wAg wBaseline 9 [("airlift-t1", wAlertOld)] []
    wAlertOld (by norm_num [wBaseline, wAg]) (by decide) with
    ⟨u, hu, _, _, _, hfd, hbc, hcc, _, _, _, hlu, _⟩
  exact ⟨u, hu, by rw [hbc]; rfl, by rw [hfd]; rfl, by rw [hcc]; rfl, hlu⟩

/-! ## C6: time-gated cleanup -/

theorem mapGet_cons_ne {α : Type} {x : String × α} {l : List (String × α)} {k : String}
    (h : (x.1 == k) = false) : mapGet (x :: l) k = mapGet l k := by
  simp [mapGet, List.find?, h]

theorem mapGet_cons_eq {α : Type} {x : String × α} {l : List (String × α)} {k : String}
    (h : (x.1 == k) = true) : mapGet (x :: l) k = some x.2 := by
  simp [mapGet, List.find?, h]

theorem mapGet_eq_none_of_not_mem_keys {α : Type} {m : List (String × α)} {k : String}
    (h : k ∉ m.map Prod.fst) : mapGet m k = none :=
  mapGet_eq_none_iff.mpr (fun p hp he => h (he ▸ List.mem_map_of_mem Prod.fst hp))

theorem clean_keys_subset {pred : TheaterActivity → Bool}
    {rest : List (String × List TheaterActivity)} {x : String}
    (hx : x ∈ (((rest.map (fun p => (p.1, p.2.filter pred))).filter
      (fun p => !p.2.isEmpty)).map Prod.fst)) : x ∈ rest.map Prod.fst := by
  rcases List.mem_map.mp hx with ⟨p, hp, rfl⟩
  rcases List.mem_map.mp (List.mem_of_mem_filter hp) with ⟨q, hq, rfl⟩
  simpa using List.mem_map_of_mem Prod.fst hq

/-- Pointwise description of the history pruning of `cleanupOldHistory`:
per theater, entries failing the predicate are dropped, and a theater whose
filtered history is empty is deleted from the map. -/
theorem mapGet_clean_history (pred : TheaterActivity → Bool)
    (L : List (String × List TheaterActivity))
    (hnd : (L.map Prod.fst).Nodup) (tid : String) :
    mapGet ((L.map (fun p => (p.1, p.2.filter pred))).filter
      (fun p => !p.2.isEmpty)) tid =
      match (mapGet L tid).map (fun h => h.filter pred) with
      | none => none
      | some [] => none
      | some fh => some fh := by
  induction L with
  | nil => simp [mapGet]
  | cons q rest ih =>
    simp only [List.map_cons, List.nodup_cons] at hnd
    by_cases hk : (q.1 == tid) = true
    · have hkeq : q.1 = tid := by simpa using hk
      rw [List.map_cons, List.filter_cons]
      by_cases hemp : q.2.filter pred = []
      · have hcond : (!(q.2.filter pred).isEmpty) = false := by
          simp [hemp]
        rw [if_neg (by simp [hcond])]
        have hnotin : tid ∉ ((rest.map (fun p => (p.1, p.2.filter pred))).filter
            (fun p => !p.2.isEmpty)).map Prod.fst := by
          intro hmem
          exact hnd.1 (hkeq ▸ clean_keys_subset hmem)
        rw [mapGet_eq_none_of_not_mem_keys hnotin, mapGet_cons_eq hk]
        simp [hemp]
      · have hcond : (!(q.2.filter pred).isEmpty) = true := by
          simp [hemp]
        rw [if_pos (by simp [hcond])]
        rw [mapGet_cons_eq (show ((q.1, q.2.filter pred).1 == tid) = true from hk),
          mapGet_cons_eq hk]
        cases hfq : q.2.filter pred with
        | nil => exact absurd hfq hemp
        | cons a l =>
          have hmap : Option.map (fun h => List.filter pred h) (some q.2) =
              some (a :: l) := by
            simp [hfq]
          rw [hmap]
    · have hk' : (q.1 == tid) = false := by
        simpa using hk
      rw [List.map_cons, List.filter_cons]
      rw [mapGet_cons_ne hk']
      by_cases hemp : (!(q.2.filter pred).isEmpty) = true
      · rw [if_pos hemp, mapGet_cons_ne (show ((q.1, q.2.filter pred).1 == tid) = false from hk')]
        exact ih hnd.2
      · rw [if_neg hemp]
        exact ih hnd.2

/-- C6: cleanup is a no-op unless at least one hour passed since the last
cleanup; when it runs it stamps the cleanup time, prunes every history entry
older than 72 hours (dropping a theater whose history empties), and evicts
every alert idle for more than 2 hours, which is then absent from the
active-alert query. -/
theorem cleanup_spec (now : Int) (st : AnalysisState)
    (hkeys : (st.activityHistory.map Prod.fst).Nodup) :
    (now - st.lastCleanup < 60 * 60 * 1000 → cleanupOldHistory now st = st) ∧
    (60 * 60 * 1000 ≤ now - st.lastCleanup →
      (cleanupOldHistory now st).lastCleanup = now ∧
      (∀ p ∈ (cleanupOldHistory now st).activityHistory, ∀ e ∈ p.2,
        now - 72 * 60 * 60 * 1000 ≤ e.timestamp) ∧
      (∀ p ∈ (cleanupOldHistory now st).activityHistory, p.2 ≠ []) ∧
      (∀ tid, mapGet (cleanupOldHistory now st).activityHistory tid =
        match (mapGet st.activityHistory tid).map
            (fun h => h.filter (fun e => now - 72 * 60 * 60 * 1000 ≤ e.timestamp)) with
        | none => none
        | some [] => none
        | some fh => some fh) ∧
      (∀ a ∈ getActiveSurges (cleanupOldHistory now st),
        now - a.lastUpdated ≤ 2 * 60 * 60 * 1000) ∧
      (∀ a ∈ getActiveSurges st, 2 * 60 * 60 * 1000 < now - a.lastUpdated →
        a ∉ getActiveSurges (cleanupOldHistory now st))) := by
  constructor
  · intro hlt
    unfold cleanupOldHistory
    rw [if_pos (show now - st.lastCleanup < CLEANUP_INTERVAL from hlt)]
  · intro hge
    have hrun : cleanupOldHistory now st =
        { activityHistory := (st.activityHistory.map
            (fun p => (p.1, p.2.filter
              (fun h => now - MAX_HISTORY_HOURS * 60 * 60 * 1000 ≤ h.timestamp)))).filter
            (fun p => !p.2.isEmpty)
          activeSurges := st.activeSurges.filter
            (fun p => !(2 * 60 * 60 * 1000 < now - p.2.lastUpdated))
          lastCleanup := now } := by
      unfold cleanupOldHistory
      rw [if_neg (show ¬ now - st.lastCleanup < CLEANUP_INTERVAL by
        simp only [CLEANUP_INTERVAL]
        omega)]
    refine ⟨by rw [hrun], fun p hp e he => ?_, fun p hp => ?_, fun tid => ?_,
      fun a ha => ?_, fun a ha hage hmem => ?_⟩
    · rw [hrun] at hp
      rcases List.mem_map.mp (List.mem_of_mem_filter hp) with ⟨q, _, rfl⟩
      have := List.of_mem_filter he
      simpa [MAX_HISTORY_HOURS] using this
    · rw [hrun] at hp
      have := List.of_mem_filter hp
      simpa [List.isEmpty_iff] using this
    · rw [hrun]
      have := mapGet_clean_history
        (fun h => decide (now - MAX_HISTORY_HOURS * 60 * 60 * 1000 ≤ h.timestamp))
        st.activityHistory hkeys tid
      simpa [MAX_HISTORY_HOURS] using this
    · rw [hrun] at ha
      rcases List.mem_map.mp ha with ⟨p, hp, rfl⟩
      have := List.of_mem_filter hp
      simp only [Bool.not_eq_true', decide_eq_false_iff_not, not_lt] at this
      exact this
    · rw [hrun] at hmem
      rcases List.mem_map.mp hmem with ⟨p, hp, heq⟩
      have := List.of_mem_filter hp
      simp only [Bool.not_eq_true', decide_eq_false_iff_not, not_lt] at this
      rw [heq] at this
      omega

def wStale : SurgeAlert :=
  { id := "airlift-t1"
    theater := wTheater
    type := SurgeType.airlift
    currentCount := 5
    baselineCount := 2
    surgeMultiple := 3
    aircraftTypes := []
    nearbyBases := []
    firstDetected := 0
    lastUpdated := 0 }

def wActivityOld : TheaterActivity :=
  { theaterId := "t"
    timestamp := 0
    transportCount := 1
    fighterCount := 0
    reconCount := 0
    totalMilitary := 1
    flightIds := ["f1"] }

def wStateStale : AnalysisState :=
  { activityHistory := [("t", [wActivityOld])]
    activeSurges := [("airlift-t1", wStale)]
    lastCleanup := 0 }

/-- Witness for C6: 83 hours after the epoch, cleanup prunes the 83-hour-old
history entry (deleting the theater) and evicts the 83-hour-stale alert. -/
theorem cleanup_spec_witness :
    mapGet (cleanupOldHistory 300000000 wStateStale).activityHistory "t" = none ∧
    wStale ∉ getActiveSurges (cleanupOldHistory 300000000 wStateStale) := by
  have h := (cleanup_spec 300000000 wStateStale (by decide)).2 (by decide)
  constructor
  · rw [h.2.2.2.1 "t"]
    decide
  · exact h.2.2.2.2.2 wStale (by decide) (by decide)

/-! ## C7: at most one active alert per (type, theater) key -/

theorem airliftStep_surges_inv (theater : MilitaryTheater) (ag : Aggregation)
    (baseline : Baseline) (now : Int) (surges : List (String × SurgeAlert))
    (newAlerts : List SurgeAlert)
    (hkeys : (surges.map Prod.fst).Nodup)
    (hids : ∀ p ∈ surges, p.2.id = p.1) :
    (((airliftStep theater ag baseline now surges newAlerts).1).map Prod.fst).Nodup ∧
    (∀ p ∈ (airliftStep theater ag baseline now surges newAlerts).1,
      p.2.id = p.1) := by
  rw [airliftStep_eq]
  by_cases hc : baseline.transport * SURGE_THRESHOLD ≤ (ag.transportCount : ℚ) ∧
      5 ≤ ag.transportCount
  · rw [if_pos hc]
    cases hm : mapGet surges ("airlift-" ++ theater.id) with
    | none =>
      refine ⟨nodup_keys_mapSet _ _ hkeys, fun p hp => ?_⟩
      rcases mem_mapSet hp with rfl | hpm
      · rfl
      · exact hids p hpm
    | some old =>
      refine ⟨nodup_keys_mapSet _ _ hkeys, fun p hp => ?_⟩
      rcases mem_mapSet hp with rfl | hpm
      · rcases mapGet_eq_some_mem hm with ⟨q, hq, hq1, hq2⟩
        show (updatedAirliftAlert old ag baseline now).id = _
        have : old.id = "airlift-" ++ theater.id := by
          rw [← hq2, hids q hq, hq1]
        simpa [updatedAirliftAlert] using this
      · exact hids p hpm
  · rw [if_neg hc]
    exact ⟨hkeys, hids⟩

theorem fighterStep_surges_inv (theater : MilitaryTheater) (ag : Aggregation)
    (baseline : Baseline) (now : Int) (surges : List (String × SurgeAlert))
    (newAlerts : List SurgeAlert)
    (hkeys : (surges.map Prod.fst).Nodup)
    (hids : ∀ p ∈ surges, p.2.id = p.1) :
    (((fighterStep theater ag baseline now surges newAlerts).1).map Prod.fst).Nodup ∧
    (∀ p ∈ (fighterStep theater ag baseline now surges newAlerts).1,
      p.2.id = p.1) := by
  rw [fighterStep_eq]
  by_cases hc : baseline.fighter * SURGE_THRESHOLD ≤ (ag.fighterCount : ℚ) ∧
      4 ≤ ag.fighterCount
  · rw [if_pos hc]
    by_cases hm : (mapGet surges ("fighter-" ++ theater.id)).isSome
    · rw [if_pos hm]
      exact ⟨hkeys, hids⟩
    · rw [if_neg hm]
      refine ⟨nodup_keys_mapSet _ _ hkeys, fun p hp => ?_⟩
      rcases mem_mapSet hp with rfl | hpm
      · rfl
      · exact hids p hpm
  · rw [if_neg hc]
    exact ⟨hkeys, hids⟩

theorem analyzeStep_surges_inv (bases : List Base) (dist : DistFun) (now : Int)
    (acc : AnalysisState × List SurgeAlert) (entry : String × List MilitaryFlight)
    (hkeys : (acc.1.activeSurges.map Prod.fst).Nodup)
    (hids : ∀ p ∈ acc.1.activeSurges, p.2.id = p.1) :
    (((analyzeStep bases dist now acc entry).1.activeSurges).map Prod.fst).Nodup ∧
    (∀ p ∈ (analyzeStep bases dist now acc entry).1.activeSurges, p.2.id = p.1) := by
  rcases acc with ⟨st, newAlerts⟩
  simp only [analyzeStep]
  cases hth : THEATERS.find? (fun t => t.id == entry.1) with
  | none => exact ⟨hkeys, hids⟩
  | some theater =>
    dsimp only
    have h1 := airliftStep_surges_inv theater (aggregate bases dist entry.2)
      (calculateBaseline
        (updateHistory st entry.1 (mkActivity bases dist now entry.1 entry.2)).activityHistory
        now entry.1)
      now (updateHistory st entry.1 (mkActivity bases dist now entry.1 entry.2)).activeSurges
      newAlerts hkeys hids
    exact fighterStep_surges_inv theater (aggregate bases dist entry.2)
      (calculateBaseline
        (updateHistory st entry.1 (mkActivity bases dist now entry.1 entry.2)).activityHistory
        now entry.1)
      now _ _ h1.1 h1.2

theorem analyze_foldl_surges_inv (bases : List Base) (dist : DistFun) (now : Int)
    (groups : List (String × List MilitaryFlight)) :
    ∀ (start : AnalysisState × List SurgeAlert),
      (start.1.activeSurges.map Prod.fst).Nodup →
      (∀ p ∈ start.1.activeSurges, p.2.id = p.1) →
      (((groups.foldl (analyzeStep bases dist now) start).1.activeSurges).map
        Prod.fst).Nodup ∧
      (∀ p ∈ (groups.foldl (analyzeStep bases dist now) start).1.activeSurges,
        p.2.id = p.1) := by
  induction groups with
  | nil =>
    intro s h1 h2
    exact ⟨h1, h2⟩
  | cons g gs ih =>
    intro s h1 h2
    simp only [List.foldl_cons]
    have hstep := analyzeStep_surges_inv bases dist now s g h1 h2
    exact ih (analyzeStep bases dist now s g) hstep.1 hstep.2

theorem cleanup_surges_keys_nodup (now : Int) (st : AnalysisState)
    (hkeys : (st.activeSurges.map Prod.fst).Nodup) :
    (((cleanupOldHistory now st).activeSurges).map Prod.fst).Nodup := by
  unfold cleanupOldHistory
  by_cases hg : now - st.lastCleanup < CLEANUP_INTERVAL
  · rw [if_pos hg]
    exact hkeys
  · rw [if_neg hg]
    exact List.Nodup.sublist
      (List.Sublist.map Prod.fst (List.filter_sublist st.activeSurges)) hkeys

/-- C7: the active-alert map holds at most one alert per
(surge-type, theater) key: key uniqueness (and the binding of each stored
alert's id to its key) is preserved by the analysis operation and by
cleanup; the query operations read the state without modifying it. -/
theorem alert_key_unique (bases : List Base) (dist : DistFun) (now : Int)
    (st : AnalysisState) (flights : List MilitaryFlight)
    (hkeys : (st.activeSurges.map Prod.fst).Nodup)
    (hids : ∀ p ∈ st.activeSurges, p.2.id = p.1) :
    (((analyzeFlightsForSurge bases dist now st flights).1.activeSurges).map
      Prod.fst).Nodup ∧
    (∀ p ∈ (analyzeFlightsForSurge bases dist now st flights).1.activeSurges,
      p.2.id = p.1) ∧
    (((cleanupOldHistory now st).activeSurges).map Prod.fst).Nodup ∧
    getActiveSurges st = st.activeSurges.map Prod.snd := by
  have hclean : (((cleanupOldHistory now st).activeSurges).map Prod.fst).Nodup :=
    cleanup_surges_keys_nodup now st hkeys
  have hcleanIds : ∀ p ∈ (cleanupOldHistory now st).activeSurges, p.2.id = p.1 := by
    intro p hp
    unfold cleanupOldHistory at hp
    by_cases hg : now - st.lastCleanup < CLEANUP_INTERVAL
    · rw [if_pos hg] at hp
      exact hids p hp
    · rw [if_neg hg] at hp
      exact hids p (List.mem_of_mem_filter hp)
  have h := analyze_foldl_surges_inv bases dist now (groupFlights bases dist flights)
    (cleanupOldHistory now st, []) hclean hcleanIds
  exact ⟨h.1, h.2, hclean, rfl⟩

/-- Witness for C7: running analysis on the stale one-alert state keeps the
alert keys unique. -/
theorem alert_key_unique_witness :
    (((analyzeFlightsForSurge [] wFarDist 300000000 wStateStale []).1.activeSurges).map
      Prod.fst).Nodup :=
  (alert_key_unique [] wFarDist 300000000 wStateStale [] (by decide) (by decide)).1

/-! ## C8: history cap at 200 entries -/

theorem updateHistory_mapGet (st : AnalysisState) (theaterId : String)
    (activity : TheaterActivity) :
    mapGet (updateHistory st theaterId activity).activityHistory theaterId =
      some (if ((mapGet st.activityHistory theaterId).getD [] ++ [activity]).length > 200
        then ((mapGet st.activityHistory theaterId).getD [] ++ [activity]).tail
        else (mapGet st.activityHistory theaterId).getD [] ++ [activity]) := by
  simp only [updateHistory]
  exact mapGet_mapSet_self _ _ _

theorem updateHistory_len (st : AnalysisState) (theaterId : String)
    (activity : TheaterActivity)
    (h : ∀ p ∈ st.activityHistory, p.2.length ≤ 200) :
    ∀ p ∈ (updateHistory st theaterId activity).activityHistory,
      p.2.length ≤ 200 := by
  intro p hp
  simp only [updateHistory] at hp
  rcases mem_mapSet hp with rfl | hpm
  · dsimp only
    have hold : ((mapGet st.activityHistory theaterId).getD []).length ≤ 200 := by
      cases hm : mapGet st.activityHistory theaterId with
      | none => simp
      | some l =>
        rcases mapGet_eq_some_mem hm with ⟨q, hq, _, hq2⟩
        simpa [hq2] using h q hq
    split
    · rename_i hgt
      simp only [List.length_tail, List.length_append, List.length_singleton]
      omega
    · rename_i hle
      simp only [List.length_append, List.length_singleton] at hle ⊢
      omega
  · exact h p hpm

theorem analyzeStep_history_len (bases : List Base) (dist : DistFun) (now : Int)
    (acc : AnalysisState × List SurgeAlert) (entry : String × List MilitaryFlight)
    (h : ∀ p ∈ acc.1.activityHistory, p.2.length ≤ 200) :
    ∀ p ∈ (analyzeStep bases dist now acc entry).1.activityHistory,
      p.2.length ≤ 200 := by
  rcases acc with ⟨st, newAlerts⟩
  simp only [analyzeStep]
  cases hth : THEATERS.find? (fun t => t.id == entry.1) with
  | none => exact h
  | some theater =>
    dsimp only
    exact updateHistory_len st entry.1 (mkActivity bases dist now entry.1 entry.2) h

theorem analyze_foldl_history_len (bases : List Base) (dist : DistFun) (now : Int)
    (groups : List (String × List MilitaryFlight)) :
    ∀ (start : AnalysisState × List SurgeAlert),
      (∀ p ∈ start.1.activityHistory, p.2.length ≤ 200) →
      ∀ p ∈ (groups.foldl (analyzeStep bases dist now) start).1.activityHistory,
        p.2.length ≤ 200 := by
  induction groups with
  | nil =>
    intro s hs
    exact hs
  | cons g gs ih =>
    intro s hs
    simp only [List.foldl_cons]
    rcases s with ⟨st, acc⟩
    exact ih (analyzeStep bases dist now (st, acc) g)
      (analyzeStep_history_len bases dist now (st, acc) g hs)

theorem cleanup_history_len (now : Int) (st : AnalysisState)
    (h : ∀ p ∈ st.activityHistory, p.2.length ≤ 200) :
    ∀ p ∈ (cleanupOldHistory now st).activityHistory, p.2.length ≤ 200 := by
  intro p hp
  unfold cleanupOldHistory at hp
  by_cases hg : now - st.lastCleanup < CLEANUP_INTERVAL
  · rw [if_pos hg] at hp
    exact h p hp
  · rw [if_neg hg] at hp
    rcases List.mem_map.mp (List.mem_of_mem_filter hp) with ⟨q, hq, rfl⟩
    calc (q.2.filter _).length ≤ q.2.length := List.length_filter_le _ _
    _ ≤ 200 := h q hq

/-- C8: a theater's activity history never exceeds 200 entries across
analysis calls; each cycle with activity for a theater appends exactly one
snapshot stamped with the cycle's `now`, dropping the oldest entry first
when the append would exceed 200. -/
theorem history_cap_spec (bases : List Base) (dist : DistFun) (now : Int)
    (st : AnalysisState) (flights : List MilitaryFlight)
    (hlen : ∀ p ∈ st.activityHistory, p.2.length ≤ 200) :
    (∀ p ∈ (analyzeFlightsForSurge bases dist now st flights).1.activityHistory,
      p.2.length ≤ 200) ∧
    (∀ (st₀ : AnalysisState) (acc : List SurgeAlert) (tid : String)
        (fs : List MilitaryFlight) (th : MilitaryTheater),
      THEATERS.find? (fun t => t.id == tid) = some th →
      ∃ h', mapGet ((analyzeStep bases dist now (st₀, acc) (tid, fs)).1.activityHistory)
          tid = some h' ∧
        h'.getLast? = some (mkActivity bases dist now tid fs) ∧
        (mkActivity bases dist now tid fs).timestamp = now ∧
        (((mapGet st₀.activityHistory tid).getD []).length < 200 →
          h' = (mapGet st₀.activityHistory tid).getD [] ++
            [mkActivity bases dist now tid fs]) ∧
        (200 ≤ ((mapGet st₀.activityHistory tid).getD []).length →
          h' = ((mapGet st₀.activityHistory tid).getD [] ++
            [mkActivity bases dist now tid fs]).tail) ∧
        (((mapGet st₀.activityHistory tid).getD []).length ≤ 200 →
          h'.length ≤ 200)) := by
  constructor
  · unfold analyzeFlightsForSurge
    exact analyze_foldl_history_len bases dist now (groupFlights bases dist flights)
      (cleanupOldHistory now st, []) (cleanup_history_len now st hlen)
  · intro st₀ acc tid fs th hth
    have hhist : (analyzeStep bases dist now (st₀, acc) (tid, fs)).1.activityHistory =
        (updateHistory st₀ tid (mkActivity bases dist now tid fs)).activityHistory := by
      simp only [analyzeStep]
      rw [hth]
    refine ⟨_, by rw [hhist]; exact updateHistory_mapGet st₀ tid _, ?_, rfl, ?_, ?_, ?_⟩
    · split
      · rename_i hgt
        cases hold : (mapGet st₀.activityHistory tid).getD [] with
        | nil => simp [hold] at hgt
        | cons a l =>
          simp [List.getLast?_append]
      · rw [List.getLast?_append]
        rfl
    · intro hlt
      rw [if_neg (by simp only [List.length_append, List.length_singleton]; omega)]
    · intro hge
      rw [if_pos (by simp only [List.length_append, List.length_singleton]; omega)]
    · intro hle
      split
      · rename_i hgt
        simp only [List.length_tail, List.length_append, List.length_singleton]
        omega
      · rename_i hngt
        simp only [List.length_append, List.length_singleton] at hngt ⊢
        omega

/-- The Middle East theater of the catalog. -/
def middleEast : MilitaryTheater :=
  { id := "middle-east",
    name := "Middle East / Persian Gulf",
    baseIds := ["al_udeid", "ali_al_salem_air_base", "camp_arifjan", "camp_buehring",
                "kuwait_naval_base", "naval_support_activity_bahrain", "isa_air_base",
                "masirah_aira_base", "rafo_thumrait", "al_dhafra_air_base",
                "port_of_jebel_ali", "fujairah_naval_base", "prince_sultan_air_base",
                "ain_assad_air_base", "camp_victory", "naval_support_facility_diego_garcia"],
    centerLat := 27, centerLon := 50 }

/-- Witness for C8: on an empty history, one cycle step leaves exactly the
one appended snapshot for the theater. -/
theorem history_cap_spec_witness :
    mapGet ((analyzeStep [] wFarDist 7 (⟨[], [], 0⟩, []) ("middle-east", [])).1.activityHistory)
      "middle-east" = some [mkActivity [] wFarDist 7 "middle-east" []] := by
  rcases (history_cap_spec [] wFarDist 7 ⟨[], [], 0⟩ [] (by simp)).2
      ⟨[], [], 0⟩ [] "middle-east" [] middleEast (by decide) with
    ⟨h', hget, _, _, hlt, _, _⟩
  rw [hget, hlt (by decide)]
  rfl

end WorldMonitor
